import Mathlib

/-!
Shallow embedding of the HarmonyLink player / node-driver core.

The `Player` class (`src/unnamed/part_002`) is embedded as a structure of its
mutable fields; each method becomes a pure function from the player state to
the new state, paired with the list of externally observable effects (REST
calls to the remote node, packets sent to Discord, emitted lifecycle events)
the method performs, in program order.  Diagnostic `debug` emissions are not
tracked.  The `LavalinkV4` node driver (`src/src/nodeDriver/LavalinkV4.ts`)
is embedded the same way for its `wsClose` and track-decode `request` paths.
-/

namespace HarmonyLink

/-- Connection state of a player (spec §3: DESTROYED, CONNECTING, CONNECTED,
DISCONNECTED; the enum source file is not in the repository snapshot). -/
inductive PlayerConnectionState where
  | CONNECTED
  | DISCONNECTED
  | DESTROYED
  | CONNECTING
deriving DecidableEq

/-- Voice-level connection state of a player (spec §3). -/
inductive VoiceConnectionState where
  | DISCONNECTED
  | CONNECTING
  | CONNECTED
deriving DecidableEq

/-- Loop mode of a player.  Modelled from the spec: the `PlayerLoop` enum
source is not in the repository snapshot; spec §3 gives the three variants
NONE, TRACK, QUEUE (string-valued in the source, all members truthy). -/
inductive PlayerLoop where
  | NONE
  | TRACK
  | QUEUE
deriving DecidableEq

/-- A track: an identifier plus the encoded payload.  `track = none` models an
unresolved track (spec §3: a Track may exist unresolved until lazily resolved
before playback). -/
structure Track where
  ident : Nat
  track : Option String
deriving DecidableEq

/-- Modelled from the spec: the `Queue` class imported by the Player is not in
the repository snapshot.  Spec §3: an ordered pending sequence of tracks
(FIFO, array-like `shift`/`unshift`/`push`) plus `currentTrack` and
`previousTrack` pointers. -/
structure Queue where
  pending : List Track
  currentTrack : Option Track
  previousTrack : Option Track
deriving DecidableEq

/-- Modelled from the spec: `Queue._cleanUp` clears the queue when the player
disconnects (spec §4.3 `destroy()`: "disconnects voice, clears the queue"). -/
def Queue.cleanUp (_q : Queue) : Queue :=
  { pending := [], currentTrack := none, previousTrack := none }

/-- Externally observable effects of a Player method, in program order. -/
inductive Eff where
  | restUpdatePlayerTrack (encoded : Option String)
  | restUpdatePlayerPaused (paused : Bool)
  | restDestroyPlayer
  | sendVoicePacket (channelId : Option String)
  | emitTrackEnd
  | emitQueueEmpty
  | emitPlayerDestroy
deriving DecidableEq

/-- Mutable state of a `Player` instance (fields of the class in
`src/unnamed/part_002`; `ping`/`timestamp` and the node/manager references are
omitted as no claim mentions them). -/
structure Player where
  voiceChannelId : String
  guildId : String
  isConnected : Bool
  isPlaying : Bool
  isPaused : Bool
  state : PlayerConnectionState
  voiceState : VoiceConnectionState
  loop : PlayerLoop
  isAutoplay : Bool
  position : Nat
  queue : Queue
deriving DecidableEq

/-- The Player constructor: voice/guild ids from the options, all flags false,
`state = DESTROYED`, `voiceState = DISCONNECTED`, loop NONE, empty queue. -/
def Player.init (voiceId guildId : String) : Player :=
  { voiceChannelId := voiceId
    guildId := guildId
    isConnected := false
    isPlaying := false
    isPaused := false
    state := .DESTROYED
    voiceState := .DISCONNECTED
    loop := .NONE
    isAutoplay := false
    position := 0
    queue := { pending := [], currentTrack := none, previousTrack := none } }

/-- `Player.play()`: no-op on an empty queue; otherwise shifts the next track
into `currentTrack`, resolves it first when it has no encoded payload (the
resolver `ρ` stands for `Track.resolve`, whose source is not in the
snapshot), issues the REST update-player call with the encoded payload, and
sets `isPlaying := true`, `position := 0`, `isPaused := false`. -/
def Player.play (ρ : Track → Track) (p : Player) : Player × List Eff :=
  match p.queue.pending with
  | [] => (p, [])
  | t :: rest =>
    let c := if t.track = none then ρ t else t
    ({ p with
        queue := { p.queue with pending := rest, currentTrack := some c }
        isPlaying := true
        position := 0
        isPaused := false },
      [Eff.restUpdatePlayerTrack c.track])

/-- `Player.skip()`: no-op on an empty queue; otherwise resets position, sets
`isPlaying := false`, `isPaused := true` and clears the remote track via the
REST update-player call (`encoded: null`). -/
def Player.skip (p : Player) : Player × List Eff :=
  if p.queue.pending = [] then (p, [])
  else
    ({ p with position := 0, isPlaying := false, isPaused := true },
      [Eff.restUpdatePlayerTrack none])

/-- `Player.pause(toggle)`: issues the REST update-player call with the paused
flag, then sets `isPaused := toggle` and `isPlaying := !toggle`,
unconditionally. -/
def Player.pause (toggle : Bool) (p : Player) : Player × List Eff :=
  ({ p with isPaused := toggle, isPlaying := !toggle },
    [Eff.restUpdatePlayerPaused toggle])

/-- One step of the argumentless `setLoop()` cycle:
NONE → TRACK → QUEUE → NONE. -/
def cycleLoop : PlayerLoop → PlayerLoop
  | .NONE => .TRACK
  | .TRACK => .QUEUE
  | .QUEUE => .NONE

/-- `Player.setLoop(mode?)`: sets the given mode when one is supplied,
otherwise advances the cycle NONE → TRACK → QUEUE → NONE. -/
def Player.setLoop (mode : Option PlayerLoop) (p : Player) : Player :=
  match mode with
  | some m => { p with loop := m }
  | none => { p with loop := cycleLoop p.loop }

/-- `Player.setAutoplay(toggle?)`: the source tests the argument for
truthiness (`if (toggle) this.isAutoplay = toggle; else this.isAutoplay =
!this.isAutoplay;`), so only `true` is assigned directly; both `false` and a
missing argument take the inversion branch. -/
def Player.setAutoplay (toggle : Option Bool) (p : Player) : Player :=
  match toggle with
  | some true => { p with isAutoplay := true }
  | some false => { p with isAutoplay := !p.isAutoplay }
  | none => { p with isAutoplay := !p.isAutoplay }

/-- `Player.checkDestroyed()`: throws when the player's connection state is
already DESTROYED.  Defined in the source but called from nowhere. -/
def Player.checkDestroyed (p : Player) : Except String Unit :=
  if p.state = .DESTROYED then .error "Player is already destroyed" else .ok ()

/-- `Player.disconnect()`: no-op when no voice channel is set; otherwise
cleans the queue, calls `skip()` (a no-op after the cleanup emptied the
queue), clears the connection flags and sends the voice-leave packet
(`channel_id: null`) to Discord. -/
def Player.disconnect (p : Player) : Player × List Eff :=
  if p.voiceChannelId = "" then (p, [])
  else
    let p1 := { p with queue := p.queue.cleanUp }
    let s := p1.skip
    ({ s.1 with
        isConnected := false
        state := .DISCONNECTED
        voiceState := .DISCONNECTED },
      s.2 ++ [Eff.sendVoicePacket none])

/-- `Player.destroy()`: disconnects, issues the REST destroy-player call and
emits the destroy notification (the registry removal that produces the
boolean return value is outside the player state).  The source performs no
destroyed-state check on this path. -/
def Player.destroy (p : Player) : Player × List Eff :=
  let d := p.disconnect
  (d.1, d.2 ++ [Eff.restDestroyPlayer, Eff.emitPlayerDestroy])

/-- Outcome of the awaited `connectionUpdate` signal inside
`Player.connect()`: the voice handshake status, or the aborted wait. -/
inductive ConnectOutcome where
  | sessionReady
  | sessionIdMissing
  | sessionEndpointMissing
  | otherStatus
  | abortTimeout
deriving DecidableEq

/-- Errors `Player.connect()` can throw. -/
inductive ConnErr where
  | missingSessionId
  | missingEndpoint
  | timeout
deriving DecidableEq

/-- `Player.connect()`: returns unchanged when already CONNECTED, when no
voice channel is set, or when the voice state is already
CONNECTING/CONNECTED.  Otherwise sets `voiceState := CONNECTING`, sends the
voice-join packet, and awaits the handshake outcome: SESSION_READY (or any
status the switch does not recognise) sets `voiceState := CONNECTED`; the two
missing-session statuses and the timeout throw.  The `finally` block sets
`state := CONNECTED` on every one of those paths, throwing or not.  The
result carries the player state as left after the call, the thrown error if
any, and the effects. -/
def Player.connect (p : Player) (o : ConnectOutcome) :
    Player × Option ConnErr × List Eff :=
  if p.state = .CONNECTED ∨ p.voiceChannelId = "" then (p, none, [])
  else if p.voiceState = .CONNECTING ∨ p.voiceState = .CONNECTED then (p, none, [])
  else
    let p1 := { p with voiceState := .CONNECTING }
    let effs := [Eff.sendVoicePacket (some p.voiceChannelId)]
    match o with
    | .sessionReady =>
        ({ p1 with voiceState := .CONNECTED, state := .CONNECTED }, none, effs)
    | .otherStatus =>
        ({ p1 with voiceState := .CONNECTED, state := .CONNECTED }, none, effs)
    | .sessionIdMissing =>
        ({ p1 with state := .CONNECTED }, some .missingSessionId, effs)
    | .sessionEndpointMissing =>
        ({ p1 with state := .CONNECTED }, some .missingEndpoint, effs)
    | .abortTimeout =>
        ({ p1 with state := .CONNECTED }, some .timeout, effs)

/-- End reason carried by a `TrackEndEvent`. -/
inductive TrackEndReason where
  | finished
  | loadFailed
  | stopped
  | replaced
  | cleanup
deriving DecidableEq

/-- The `TrackEndEvent` arm of `Player._eventHandler`: clears the playing
flags, archives `currentTrack` into `previousTrack` (when present) and nulls
it; reason `replaced` only notifies; `loadFailed`/`cleanup` advance the queue
directly or signal queue-empty; otherwise the loop policy applies (TRACK:
re-queue previous at the front and replay; QUEUE: re-queue previous at the
back and replay; NONE: autoplay when enabled, else advance or signal
queue-empty).  `ρ` is the track resolver, `ap` the `autoplay()` behaviour
(both external to this arm).  The source throws on none of these paths, so
the function is total. -/
def Player.handleTrackEnd (ρ : Track → Track) (ap : Player → Player × List Eff)
    (reason : TrackEndReason) (p : Player) : Player × List Eff :=
  let p1 := { p with isPlaying := false, isPaused := true }
  let q1 :=
    { p1.queue with
        previousTrack :=
          if p1.queue.currentTrack.isSome then p1.queue.currentTrack
          else p1.queue.previousTrack
        currentTrack := none }
  let p2 := { p1 with queue := q1 }
  if reason = .replaced then (p2, [Eff.emitTrackEnd])
  else if reason = .loadFailed ∨ reason = .cleanup then
    if p2.queue.pending = [] then (p2, [Eff.emitQueueEmpty])
    else
      let s := p2.play ρ
      (s.1, Eff.emitTrackEnd :: s.2)
  else
    match p2.loop with
    | .TRACK =>
      match p2.queue.previousTrack with
      | none => (p2, [Eff.emitQueueEmpty])
      | some prev =>
        let p3 := { p2 with queue := { p2.queue with pending := prev :: p2.queue.pending } }
        let s := p3.play ρ
        (s.1, Eff.emitTrackEnd :: s.2)
    | .QUEUE =>
      match p2.queue.previousTrack with
      | none => (p2, [Eff.emitQueueEmpty])
      | some prev =>
        let p3 := { p2 with queue := { p2.queue with pending := p2.queue.pending ++ [prev] } }
        let s := p3.play ρ
        (s.1, Eff.emitTrackEnd :: s.2)
    | .NONE =>
      if p2.isAutoplay then ap p2
      else if p2.queue.pending = [] then (p2, [Eff.emitQueueEmpty])
      else
        let s := p2.play ρ
        (s.1, Eff.emitTrackEnd :: s.2)

/-- A user command from the set the flag invariant quantifies over. -/
inductive Cmd where
  | play
  | skip
  | pause (toggle : Bool)

/-- Apply one user command to the player state (effects dropped). -/
def stepCmd (ρ : Track → Track) (p : Player) : Cmd → Player
  | .play => (p.play ρ).1
  | .skip => p.skip.1
  | .pause t => (p.pause t).1

/-- Run a sequence of user commands from a player state. -/
def runCmds (ρ : Track → Track) (p : Player) (cs : List Cmd) : Player :=
  cs.foldl (stepCmd ρ) p

/-- Decoded track metadata as produced by the local decoder boundary
(`AbstractNodeDriver.decoder`: encoded string to metadata, or null on
malformed input). -/
structure TrackData where
  ident : String
deriving DecidableEq

/-- Externally observable effects of the `LavalinkV4` driver. -/
inductive DriverEff where
  | socketClose (code : Nat) (reason : String)
  | emitNodeDisconnect
  | removeAllListeners
  | restRemoteDecode (failed : List String)
deriving DecidableEq

/-- Driver state relevant to `wsClose`: whether a live socket handle is
held (`wsClient` set or undefined). -/
structure DriverState where
  wsClient : Option Unit
deriving DecidableEq

/-- `LavalinkV4.wsClose(withoutEmit = false)`: when `withoutEmit` is true the
source closes the socket (code 1006, "Self Closed") and emits the
`nodeDisconnect` event; in both cases it then removes all listeners from the
socket (when one is held) and drops the handle.  The socket close and the
listener removal use optional chaining, so they happen only when a handle is
present; the manager reference is assumed registered. -/
def wsClose (withoutEmit : Bool) (d : DriverState) : DriverState × List DriverEff :=
  let e1 : List DriverEff :=
    if withoutEmit then
      (if d.wsClient.isSome then [DriverEff.socketClose 1006 "Self Closed"] else []) ++
        [DriverEff.emitNodeDisconnect]
    else []
  let e2 : List DriverEff :=
    if d.wsClient.isSome then [DriverEff.removeAllListeners] else []
  ({ wsClient := none }, e1 ++ e2)

/-- The `/decodetrack(s)` arm of `LavalinkV4.request` for a batch body: each
encoded string is run through the local decoder `dec`; successes are
collected into `data`, failures into `failedTracks`.  When any entry failed,
the source issues one remote POST `/v4/decodetracks` carrying exactly the
failed entries and returns that response alone; only when every entry decoded
locally is `data` returned.  `remote` stands for the remote node's response
to the decode call (spec: remote entries may surface as null). -/
def decodeTracksRequest (dec : String → Option TrackData)
    (remote : List String → List (Option TrackData))
    (body : List String) : List (Option TrackData) × List DriverEff :=
  let data : List TrackData := body.filterMap dec
  let failedTracks : List String := body.filter (fun s => dec s = none)
  if failedTracks = [] then (data.map some, [])
  else (remote failedTracks, [DriverEff.restRemoteDecode failedTracks])

/-- A resolved sample track. -/
def trackA : Track := { ident := 0, track := some "ea" }

/-- A second resolved sample track. -/
def trackB : Track := { ident := 1, track := some "eb" }

/-- Sample player: loop TRACK, track A current, track B pending. -/
def samplePlayerLoopTrack : Player :=
  { Player.init "vc" "g" with
      loop := .TRACK
      queue := { pending := [trackB], currentTrack := some trackA, previousTrack := none } }

/-- Trivial resolver used to instantiate resolver parameters. -/
def idResolver : Track → Track := id

/-- Trivial autoplay behaviour used to instantiate autoplay parameters. -/
def noAutoplay : Player → Player × List Eff := fun p => (p, [])

/-- Sample local decoder: resolves every encoded string except "bad". -/
def decodeAllButBad : String → Option TrackData :=
  fun s => if s = "bad" then none else some { ident := s }

lemma stepCmd_flags (ρ : Track → Track) (p : Player) (c : Cmd)
    (h : ¬(p.isPlaying = true ∧ p.isPaused = true)) :
    ¬((stepCmd ρ p c).isPlaying = true ∧ (stepCmd ρ p c).isPaused = true) := by
  cases c with
  | play =>
    simp only [stepCmd, Player.play]
    cases hq : p.queue.pending with
    | nil => simpa using h
    | cons t rest => simp
  | skip =>
    simp only [stepCmd, Player.skip]
    split
    · simpa using h
    · simp
  | pause t => cases t <;> simp [stepCmd, Player.pause]

lemma runCmds_flags (ρ : Track → Track) (cs : List Cmd) (p : Player)
    (h : ¬(p.isPlaying = true ∧ p.isPaused = true)) :
    ¬((runCmds ρ p cs).isPlaying = true ∧ (runCmds ρ p cs).isPaused = true) := by
  induction cs generalizing p with
  | nil => simpa [runCmds] using h
  | cons c cs ih =>
    simpa [runCmds] using ih (stepCmd ρ p c) (stepCmd_flags ρ p c h)

/-- C1: for every sequence of `play()` / `skip()` / `pause()` calls starting
from a freshly constructed Player, `isPlaying` and `isPaused` are never
simultaneously true after any call completes. -/
theorem playing_paused_never_both (ρ : Track → Track) (voiceId guildId : String)
    (cs : List Cmd) :
    ¬((runCmds ρ (Player.init voiceId guildId) cs).isPlaying = true ∧
      (runCmds ρ (Player.init voiceId guildId) cs).isPaused = true) := by
  exact runCmds_flags ρ cs _ (by simp [Player.init])

/-- C10: `pause(toggle)` unconditionally sets `isPaused = toggle` and
`isPlaying = !toggle` for every player state, with no precondition on the
queue; in particular `pause(false)` on a freshly constructed player (empty
queue, no track ever started) leaves `isPlaying = true`. -/
theorem pause_unconditional (voiceId guildId : String) (p : Player) (t : Bool) :
    (p.pause t).1.isPaused = t ∧ (p.pause t).1.isPlaying = !t ∧
      ((Player.init voiceId guildId).pause false).1.isPlaying = true := by
  refine ⟨rfl, rfl, rfl⟩

lemma cycleLoop_three (l : PlayerLoop) : cycleLoop (cycleLoop (cycleLoop l)) = l := by
  cases l <;> rfl

lemma cycleLoop_iterate_three_mul (k : Nat) (l : PlayerLoop) :
    cycleLoop^[3 * k] l = l := by
  induction k with
  | zero => rfl
  | succ m ih =>
    have h3 : 3 * (m + 1) = 3 * m + 3 := by ring
    rw [h3, Function.iterate_add_apply]
    have : cycleLoop^[3] l = l := cycleLoop_three l
    rw [this, ih]

lemma cycleLoop_iterate_mod (n : Nat) (l : PlayerLoop) :
    cycleLoop^[n] l = cycleLoop^[n % 3] l := by
  conv_lhs => rw [← Nat.div_add_mod n 3, Function.iterate_add_apply]
  rw [cycleLoop_iterate_three_mul]

lemma setLoop_none_iterate_loop (n : Nat) (p : Player) :
    ((Player.setLoop none)^[n] p).loop = cycleLoop^[n] p.loop := by
  induction n generalizing p with
  | zero => rfl
  | succ m ih =>
    rw [Function.iterate_succ_apply, Function.iterate_succ_apply]
    exact ih (Player.setLoop none p)

/-- C6: argumentless `setLoop()` steps the loop mode along the cycle
NONE → TRACK → QUEUE → NONE; three consecutive calls restore the whole
player state, and for every number of calls the mode returns to its start
exactly when the count is a multiple of three (period exactly 3). -/
theorem setLoop_cycle_period_three (p : Player) (n : Nat) :
    (Player.setLoop none)^[3] p = p ∧
      (((Player.setLoop none)^[n] p).loop = p.loop ↔ n % 3 = 0) := by
  constructor
  · have h : (Player.setLoop none)^[3] p =
        { p with loop := cycleLoop (cycleLoop (cycleLoop p.loop)) } := rfl
    rw [h, cycleLoop_three]
  · rw [setLoop_none_iterate_loop, cycleLoop_iterate_mod]
    have h3 : n % 3 = 0 ∨ n % 3 = 1 ∨ n % 3 = 2 := by omega
    rcases h3 with h | h | h <;> rw [h] <;> cases p.loop <;> simp [cycleLoop]

/-- C8 counterexample: on a freshly constructed player (`isAutoplay = false`),
`setAutoplay(false)` leaves `isAutoplay = true`, not the `false` the claim
requires: the source tests the argument for truthiness, so the explicit
`false` takes the inversion branch. -/
theorem setAutoplay_false_counterexample :
    (Player.setAutoplay (some false) (Player.init "vc" "g")).isAutoplay = true := by
  rfl

/-- C8 amended: `setAutoplay(true)` sets `isAutoplay` to `true`; both
`setAutoplay(false)` and the argumentless call invert the current flag. -/
theorem setAutoplay_semantics (p : Player) (t : Option Bool) :
    (p.setAutoplay t).isAutoplay =
      match t with
      | some true => true
      | some false => !p.isAutoplay
      | none => !p.isAutoplay := by
  rcases t with _ | t
  · rfl
  · cases t <;> rfl

/-- C4: whenever `connect()` proceeds past its initial guards, the cleanup
step sets the connection state to CONNECTED before the call returns or
throws, for every handshake outcome (success, missing session id, missing
endpoint, unrecognised status, or timeout). -/
theorem connect_always_marks_connected (p : Player) (o : ConnectOutcome)
    (h1 : p.state ≠ .CONNECTED) (h2 : p.voiceChannelId ≠ "")
    (h3 : p.voiceState ≠ .CONNECTING) (h4 : p.voiceState ≠ .CONNECTED) :
    (p.connect o).1.state = .CONNECTED := by
  unfold Player.connect
  rw [if_neg (by tauto), if_neg (by tauto)]
  cases o <;> rfl

/-- C4 witness: a freshly constructed player (state DESTROYED, voice state
DISCONNECTED, voice channel set) run through a timed-out handshake ends with
connection state CONNECTED. -/
theorem connect_always_marks_connected_witness :
    (Player.init "vc" "g").state ≠ .CONNECTED ∧
      (Player.init "vc" "g").voiceChannelId ≠ "" ∧
      (Player.init "vc" "g").voiceState ≠ .CONNECTING ∧
      (Player.init "vc" "g").voiceState ≠ .CONNECTED ∧
      ((Player.init "vc" "g").connect ConnectOutcome.abortTimeout).1.state =
        PlayerConnectionState.CONNECTED :=
  ⟨by decide, by decide, by decide, by decide,
    connect_always_marks_connected (Player.init "vc" "g") ConnectOutcome.abortTimeout
      (by decide) (by decide) (by decide) (by decide)⟩

/-- C2: `destroy()` on a player whose connection state is already DESTROYED
still issues the REST destroy-player call and completes without any error,
even though the `checkDestroyed` guard defined in the same class (and called
from nowhere) rejects exactly that state with the player-destroyed error. -/
theorem destroy_on_destroyed_still_calls_rest (p : Player)
    (h : p.state = .DESTROYED) :
    Eff.restDestroyPlayer ∈ (p.destroy).2 ∧
      p.checkDestroyed = Except.error "Player is already destroyed" := by
  constructor
  · unfold Player.destroy Player.disconnect
    split <;> simp
  · simp [Player.checkDestroyed, h]

/-- C2 witness: a freshly constructed player starts in state DESTROYED, and
destroying it performs the REST destroy call while the unused guard would
have rejected it. -/
theorem destroy_on_destroyed_still_calls_rest_witness :
    (Player.init "vc" "g").state = PlayerConnectionState.DESTROYED ∧
      (Eff.restDestroyPlayer ∈ ((Player.init "vc" "g").destroy).2 ∧
        (Player.init "vc" "g").checkDestroyed =
          Except.error "Player is already destroyed") :=
  ⟨by decide, destroy_on_destroyed_still_calls_rest (Player.init "vc" "g") (by decide)⟩

/-- C5: with loop mode TRACK, current track `a` (already resolved) and pending
queue `[b]`, handling a TrackEndEvent with reason finished re-queues `a` at
the front and replays it: afterwards the current track is `a` again, the
pending queue is `[b]` (so `b` still follows `a`), the player is playing, and
the effects are the track-end notification followed by the REST play call for
`a`'s encoded payload. -/
theorem trackEnd_loop_track_replays (ρ : Track → Track)
    (ap : Player → Player × List Eff) (a b : Track) (p : Player)
    (hcur : p.queue.currentTrack = some a)
    (hpend : p.queue.pending = [b])
    (hloop : p.loop = .TRACK)
    (henc : a.track ≠ none) :
    (p.handleTrackEnd ρ ap .finished).1.queue.currentTrack = some a ∧
      (p.handleTrackEnd ρ ap .finished).1.queue.pending = [b] ∧
      (p.handleTrackEnd ρ ap .finished).1.queue.previousTrack = some a ∧
      (p.handleTrackEnd ρ ap .finished).1.isPlaying = true ∧
      (p.handleTrackEnd ρ ap .finished).2 =
        [Eff.emitTrackEnd, Eff.restUpdatePlayerTrack a.track] := by
  simp [Player.handleTrackEnd, Player.play, hcur, hpend, hloop, henc]

/-- C5 witness: the sample player (loop TRACK, current track A, pending [B])
replays A after a finished TrackEndEvent, with B still pending. -/
theorem trackEnd_loop_track_replays_witness :
    samplePlayerLoopTrack.queue.currentTrack = some trackA ∧
      samplePlayerLoopTrack.queue.pending = [trackB] ∧
      samplePlayerLoopTrack.loop = .TRACK ∧
      trackA.track ≠ none ∧
      ((samplePlayerLoopTrack.handleTrackEnd idResolver noAutoplay
          .finished).1.queue.currentTrack = some trackA ∧
        (samplePlayerLoopTrack.handleTrackEnd idResolver noAutoplay
          .finished).1.queue.pending = [trackB] ∧
        (samplePlayerLoopTrack.handleTrackEnd idResolver noAutoplay
          .finished).1.queue.previousTrack = some trackA ∧
        (samplePlayerLoopTrack.handleTrackEnd idResolver noAutoplay
          .finished).1.isPlaying = true ∧
        (samplePlayerLoopTrack.handleTrackEnd idResolver noAutoplay
          .finished).2 =
          [Eff.emitTrackEnd, Eff.restUpdatePlayerTrack trackA.track]) :=
  ⟨by decide, by decide, by decide, by decide,
    trackEnd_loop_track_replays idResolver noAutoplay trackA trackB
      samplePlayerLoopTrack (by decide) (by decide) (by decide) (by decide)⟩

/-- C9 counterexample: on a freshly constructed player (empty pending queue,
`isAutoplay = false`, loop NONE), a TrackEndEvent with reason `replaced` does
not emit the queue-empty event (it emits the track-end notification
instead). -/
theorem trackEnd_replaced_no_queueEmpty :
    Eff.emitQueueEmpty ∉
      ((Player.init "vc" "g").handleTrackEnd idResolver noAutoplay .replaced).2 := by
  decide

/-- C9 amended: on a player with an empty pending queue, `isAutoplay = false`
and loop NONE, handling a TrackEndEvent with any reason other than `replaced`
emits exactly the queue-empty event; the handler is a total function — no
path of this arm throws. -/
theorem trackEnd_empty_queue_emits_queueEmpty (ρ : Track → Track)
    (ap : Player → Player × List Eff) (reason : TrackEndReason) (p : Player)
    (hq : p.queue.pending = []) (hap : p.isAutoplay = false)
    (hl : p.loop = .NONE) (hr : reason ≠ .replaced) :
    (p.handleTrackEnd ρ ap reason).2 = [Eff.emitQueueEmpty] := by
  cases reason <;> simp_all [Player.handleTrackEnd]

/-- C9 amended witness: a freshly constructed player handling a finished
TrackEndEvent emits exactly the queue-empty event. -/
theorem trackEnd_empty_queue_emits_queueEmpty_witness :
    (Player.init "vc" "g").queue.pending = [] ∧
      (Player.init "vc" "g").isAutoplay = false ∧
      (Player.init "vc" "g").loop = .NONE ∧
      TrackEndReason.finished ≠ TrackEndReason.replaced ∧
      ((Player.init "vc" "g").handleTrackEnd idResolver noAutoplay
        .finished).2 = [Eff.emitQueueEmpty] :=
  ⟨by decide, by decide, by decide, by decide,
    trackEnd_empty_queue_emits_queueEmpty idResolver noAutoplay .finished
      (Player.init "vc" "g") (by decide) (by decide) (by decide) (by decide)⟩

/-- C7: with a live socket, `wsClose(true)` closes the socket, removes the
listeners AND emits the `nodeDisconnect` event, while `wsClose(false)` only
removes the listeners and emits nothing — the emission happens exactly when
`withoutEmit` is true, the inverse of what the parameter name and the spec
state. -/
theorem wsClose_emits_iff_withoutEmit :
    (wsClose true { wsClient := some () }).2 =
      [DriverEff.socketClose 1006 "Self Closed", DriverEff.emitNodeDisconnect,
        DriverEff.removeAllListeners] ∧
      (wsClose false { wsClient := some () }).2 = [DriverEff.removeAllListeners] ∧
      DriverEff.emitNodeDisconnect ∈ (wsClose true { wsClient := some () }).2 ∧
      DriverEff.emitNodeDisconnect ∉ (wsClose false { wsClient := some () }).2 := by
  refine ⟨rfl, rfl, by decide, by decide⟩

/-- C3: on a decode batch of three encoded strings of which one is malformed,
the request makes exactly one remote decode call carrying only the failed
entry, but returns the remote response ALONE — the two locally decoded tracks
are discarded, contrary to the claim that the result contains them (here with
a remote answering `[none]`, the locally decoded "g1" is absent from the
result). -/
theorem decodetracks_discards_local_successes :
    (∀ remote, decodeTracksRequest decodeAllButBad remote ["g1", "g2", "bad"] =
        (remote ["bad"], [DriverEff.restRemoteDecode ["bad"]])) ∧
      decodeAllButBad "g1" = some { ident := "g1" } ∧
      some { ident := "g1" } ∉
        (decodeTracksRequest decodeAllButBad (fun _ => [none])
          ["g1", "g2", "bad"]).1 := by
  refine ⟨fun remote => rfl, by decide, by decide⟩

end HarmonyLink
